import Mathlib

/-!
Verification of the multi-tenant WhatsApp session manager
(`src/backend/server.js`, two server variants in one file).

The backend keeps a mutable table `sessions` mapping a tenant/session id to
`{ client, ready, qrDataUrl }`, mutates it from whatsapp-web.js lifecycle
events (`qr`, `authenticated`, `ready`, `auth_failure`, `disconnected`) and
from the HTTP routes, and pushes socket.io events to the per-tenant room.
We embed that state shallowly: the session table is a function
`String → Option SessionRec`, socket.io room emissions are an append-only
list, external adapter calls (getState, sendMessage, logout, the QR encoder)
are parameters carrying their outcome, and the on-disk `.wwebjs_auth`
credential directories are a list of existing paths.
-/

namespace WebWhatsApp

/-- One socket.io event as emitted by the backend (`emitTo` / `socket.emit`). -/
inductive SocketEvent where
  /-- `emit("qr", { qr: dataUrl })` -/
  | qr (dataUrl : String)
  /-- `emit("status", { status, detail?/reason? })` -/
  | status (status : String) (detail : Option String)
  /-- `emit("sent", { to, type, filename? })` -/
  | sent (recipient : String) (kind : String) (filename : Option String)
  /-- `emit("error", { message })` -/
  | error (message : String)
deriving DecidableEq, Repr

/-- One entry of the `sessions` table: `{ client, ready, qrDataUrl }`.
The opaque `client` handle is represented by the numeric id it was
allocated with, so distinct adapter instances are distinguishable. -/
structure SessionRec where
  clientId : Nat
  ready : Bool
  qrDataUrl : Option String
deriving DecidableEq, Repr

/-- The whole server state: the `sessions` table, a counter of adapter
(`new Client(...)`) allocations, the events emitted to socket.io rooms so
far, the set of existing on-disk auth directories, and `process.cwd()`. -/
structure ServerState where
  sessions : String → Option SessionRec
  nextClientId : Nat
  emitted : List (String × SocketEvent)
  authDirs : List String
  cwd : String

/-- `sessions[sid] = v` -/
def ServerState.setSess (st : ServerState) (sid : String) (v : SessionRec) : ServerState :=
  { st with sessions := fun k => if k = sid then some v else st.sessions k }

/-- `delete sessions[sid]` -/
def ServerState.delSess (st : ServerState) (sid : String) : ServerState :=
  { st with sessions := fun k => if k = sid then none else st.sessions k }

/-- `emitTo(sid, ...)`: append one event to the room's stream. -/
def ServerState.emit (st : ServerState) (sid : String) (e : SocketEvent) : ServerState :=
  { st with emitted := st.emitted ++ [(sid, e)] }

/-- The status string the backend derives for a session record, used both by
`join-session` and by `/start-session` on an existing session:
`ready ? "LOGGED_IN" : qrDataUrl ? "WAITING_QR" : "STARTING"`. -/
def sessionStatusOf (sess : SessionRec) : String :=
  if sess.ready then "LOGGED_IN"
  else if sess.qrDataUrl.isSome then "WAITING_QR"
  else "STARTING"

/-- `getAuthDirsForSession`: the current (`session-<id>`) and legacy (`<id>`)
LocalAuth directory layouts under `<cwd>/.wwebjs_auth`. -/
def getAuthDirsForSession (cwd sid : String) : List String :=
  [cwd ++ "/.wwebjs_auth/session-" ++ sid,
   cwd ++ "/.wwebjs_auth/" ++ sid]

/-- Outcome of an awaited `client.getState()` call: it either returned a
state string or threw. -/
inductive ProbeOutcome where
  | throws
  | result (state : String)
deriving DecidableEq, Repr

/-- The `{ ok, reason }` record returned by `ensureConnected`. -/
structure ConnCheck where
  ok : Bool
  reason : Option String
deriving DecidableEq, Repr

/-- The externally visible side-effecting calls a route performs, in order. -/
inductive Action where
  /-- `client.getState()` (the ground-truth connectivity probe) -/
  | probeState (sid : String)
  /-- `client.sendMessage(...)` -/
  | clientSend (sid recipient : String)
  /-- `client.logout()` -/
  | clientLogout (sid : String)
  /-- `delete sessions[sid]` -/
  | removeSession (sid : String)
  /-- `fs.rmSync(p, { recursive: true, force: true })` -/
  | removeDir (p : String)
deriving DecidableEq, Repr

/-- An HTTP response body (with status code for error responses). -/
inductive ApiResponse where
  | error (code : Nat) (message : String)
  | status (status : String)
  | statusQr (status : String) (qr : Option String)
  | statusDeleted (status : String) (deleted : List String)
deriving DecidableEq, Repr

/-- `ensureConnected(sessionId)`: `NO_SESSION` if the table has no entry;
otherwise probe `client.getState()`, cache `ready := (state === "CONNECTED")`,
and on a thrown probe cache `ready := false` and report `NOT_CONNECTED`
without raising. Returns the result, the new state, and the adapter calls. -/
def ensureConnected (st : ServerState) (sid : String) (probe : ProbeOutcome) :
    ConnCheck × ServerState × List Action :=
  match st.sessions sid with
  | none => (⟨false, some "NO_SESSION"⟩, st, [])
  | some sess =>
    match probe with
    | ProbeOutcome.result s =>
      let connected := s = "CONNECTED"
      (⟨connected, if connected then none else some "NOT_CONNECTED"⟩,
       st.setSess sid { sess with ready := connected },
       [Action.probeState sid])
    | ProbeOutcome.throws =>
      (⟨false, some "NOT_CONNECTED"⟩,
       st.setSess sid { sess with ready := false },
       [Action.probeState sid])

/-- `createSession(sessionId)`: allocate a fresh adapter (`new Client`) and
register `{ client, ready: false, qrDataUrl: null }`.  `client.on(...)`
handler registration and the async `client.initialize()` call have no
immediate state effect; the lifecycle events are modelled as separate steps. -/
def createSession (st : ServerState) (sid : String) : ServerState :=
  { (st.setSess sid ⟨st.nextClientId, false, none⟩) with
    nextClientId := st.nextClientId + 1 }

/-- `POST /start-session` (first variant): 400 when the id is falsy; create
and return `STARTING` when no session exists; otherwise return the derived
status of the existing session without touching it. -/
def startSession (st : ServerState) (sid : String) : ApiResponse × ServerState :=
  if sid = "" then (ApiResponse.error 400 "sessionId required", st)
  else
    match st.sessions sid with
    | none => (ApiResponse.status "STARTING", createSession st sid)
    | some sess =>
      (ApiResponse.status
        (if sess.ready then "LOGGED_IN"
         else if sess.qrDataUrl.isSome then "WAITING_QR" else "STARTING"), st)

/-- `client.on("qr")` handler: `dataUrl` is the outcome of
`QRCode.toDataURL(qr)` (`none` when it threw).  On success the handler
stores the data URL and emits `qr` then `status WAITING_QR`; any throw in
the try block — including the property write on a deleted session entry —
lands in the catch, which emits an error event. -/
def qrEvent (st : ServerState) (sid : String) (dataUrl : Option String) : ServerState :=
  match dataUrl with
  | some url =>
    match st.sessions sid with
    | some sess =>
      (((st.setSess sid { sess with qrDataUrl := some url }).emit sid
          (SocketEvent.qr url)).emit sid (SocketEvent.status "WAITING_QR" none))
    | none => st.emit sid (SocketEvent.error "QR generation failed")
  | none => st.emit sid (SocketEvent.error "QR generation failed")

/-- `client.on("authenticated")` handler: emits `status AUTHENTICATED`.
It touches neither `ready` nor `qrDataUrl`. -/
def authenticatedEvent (st : ServerState) (sid : String) : ServerState :=
  st.emit sid (SocketEvent.status "AUTHENTICATED" none)

/-- `client.on("ready")` handler: sets `ready := true`, clears `qrDataUrl`,
emits `status LOGGED_IN`.  If the table entry is gone the property write
throws before anything is emitted. -/
def readyEvent (st : ServerState) (sid : String) : ServerState :=
  match st.sessions sid with
  | some sess =>
    (st.setSess sid { sess with ready := true, qrDataUrl := none }).emit sid
      (SocketEvent.status "LOGGED_IN" none)
  | none => st

/-- `client.on("auth_failure")` handler: sets `ready := false` and emits
`status AUTH_FAILURE` with the failure detail. -/
def authFailureEvent (st : ServerState) (sid msg : String) : ServerState :=
  match st.sessions sid with
  | some sess =>
    (st.setSess sid { sess with ready := false }).emit sid
      (SocketEvent.status "AUTH_FAILURE" (some msg))
  | none => st

/-- `client.on("disconnected")` handler: emits `status DISCONNECTED` with the
reason, then `delete sessions[sessionId]`. -/
def disconnectedEvent (st : ServerState) (sid reason : String) : ServerState :=
  (st.emit sid (SocketEvent.status "DISCONNECTED" (some reason))).delSess sid

/-- `socket.on("join-session")`: the list of events replayed directly to the
joining observer (via `socket.emit`, not to the room): the derived status
(`NOT_STARTED` when no session exists), then the stored QR data URL when one
is present. -/
def joinSession (st : ServerState) (sid : String) : List SocketEvent :=
  if sid = "" then []
  else
    (match st.sessions sid with
     | some sess =>
       [SocketEvent.status
          (if sess.ready then "LOGGED_IN"
           else if sess.qrDataUrl.isSome then "WAITING_QR" else "STARTING") none]
     | none => [SocketEvent.status "NOT_STARTED" none]) ++
    (match st.sessions sid with
     | some sess =>
       match sess.qrDataUrl with
       | some q => [SocketEvent.qr q]
       | none => []
     | none => [])

/-- `GET /session-status/:sessionId`: `NOT_STARTED` when unknown; otherwise
run `ensureConnected` and answer `LOGGED_IN` on a positive probe, else
`WAITING_QR`/`NOT_CONNECTED` together with the stored QR (if any). -/
def sessionStatusRoute (st : ServerState) (sid : String) (probe : ProbeOutcome) :
    ApiResponse × ServerState × List Action :=
  match st.sessions sid with
  | none => (ApiResponse.status "NOT_STARTED", st, [])
  | some sess =>
    let r := ensureConnected st sid probe
    if r.1.ok then (ApiResponse.status "LOGGED_IN", r.2.1, r.2.2)
    else
      (ApiResponse.statusQr
        (if sess.qrDataUrl.isSome then "WAITING_QR" else "NOT_CONNECTED")
        sess.qrDataUrl, r.2.1, r.2.2)

/-- `POST /send-message` (first variant). `sendOk` is the outcome of the
awaited `client.sendMessage` call. -/
def sendMessage (st : ServerState) (sid number message : String)
    (probe : ProbeOutcome) (sendOk : Bool) : ApiResponse × ServerState × List Action :=
  if sid = "" ∨ number = "" ∨ message = "" then
    (ApiResponse.error 400 "sessionId, number, message required", st, [])
  else
    match st.sessions sid with
    | none => (ApiResponse.error 404 "Session not found", st, [])
    | some _ =>
      let r := ensureConnected st sid probe
      if !r.1.ok then (ApiResponse.error 400 "Session not connected", r.2.1, r.2.2)
      else if sendOk then
        (ApiResponse.status "SENT",
         r.2.1.emit sid (SocketEvent.sent number "text" none),
         r.2.2 ++ [Action.clientSend sid number])
      else
        (ApiResponse.error 500 "Failed to send message", r.2.1,
         r.2.2 ++ [Action.clientSend sid number])

/-- `POST /send-media` (first variant).  `file` is the uploaded file's
original name (`none` when no file came with the request); the multer temp
file and the `sent_files` copy are upload plumbing outside the modelled
credential store. -/
def sendMedia (st : ServerState) (sid number : String) (file : Option String)
    (probe : ProbeOutcome) (sendOk : Bool) : ApiResponse × ServerState × List Action :=
  if sid = "" ∨ number = "" ∨ file = none then
    (ApiResponse.error 400 "sessionId, number, file required", st, [])
  else
    match st.sessions sid with
    | none => (ApiResponse.error 404 "Session not found", st, [])
    | some _ =>
      let r := ensureConnected st sid probe
      if !r.1.ok then (ApiResponse.error 400 "Session not connected", r.2.1, r.2.2)
      else if sendOk then
        (ApiResponse.status "SENT",
         r.2.1.emit sid (SocketEvent.sent number "media" file),
         r.2.2 ++ [Action.clientSend sid number])
      else
        (ApiResponse.error 500 "Failed to send media", r.2.1,
         r.2.2 ++ [Action.clientSend sid number])

/-- `POST /send-media` (second variant, lines 525-559): checks only the
cached `ready` flag — it never calls `ensureConnected` — and emits no
socket event on success. -/
def sendMediaV2 (st : ServerState) (sid number : String) (file : Option String)
    (sendOk : Bool) : ApiResponse × ServerState × List Action :=
  match st.sessions sid with
  | none => (ApiResponse.error 400 "Session not found", st, [])
  | some sess =>
    if !sess.ready then (ApiResponse.error 400 "Session not ready", st, [])
    else
      match file with
      | none => (ApiResponse.error 400 "No file uploaded", st, [])
      | some _ =>
        if sendOk then
          (ApiResponse.status "Media sent successfully", st, [Action.clientSend sid number])
        else
          (ApiResponse.error 500 "Failed to send media", st, [Action.clientSend sid number])

/-- `POST /logout-session` (first variant): 404 when unknown; otherwise
`try { await sess.client.logout() } catch (_) {}` — `logoutThrows` says
whether that call threw, and the catch swallows it either way — then
`delete sessions[sessionId]`, emit `status LOGGED_OUT`, answer `LOGGED_OUT`. -/
def logoutSession (st : ServerState) (sid : String) (logoutThrows : Bool) :
    ApiResponse × ServerState × List Action :=
  if sid = "" then (ApiResponse.error 400 "sessionId required", st, [])
  else
    match st.sessions sid with
    | none => (ApiResponse.error 404 "Session not found", st, [])
    | some _ =>
      match logoutThrows with
      | true =>
        (ApiResponse.status "LOGGED_OUT",
         (st.delSess sid).emit sid (SocketEvent.status "LOGGED_OUT" none),
         [Action.clientLogout sid, Action.removeSession sid])
      | false =>
        (ApiResponse.status "LOGGED_OUT",
         (st.delSess sid).emit sid (SocketEvent.status "LOGGED_OUT" none),
         [Action.clientLogout sid, Action.removeSession sid])

/-- The `for (const d of dirs) if (fs.existsSync(d)) { fs.rmSync(d); deleted.push(d) }`
loop: walks `dirs` in order over the existing-directory list `fsDirs`,
returning the remaining directories and the deleted paths in loop order. -/
def deleteExisting (fsDirs : List String) : List String → List String × List String
  | [] => (fsDirs, [])
  | d :: rest =>
    if fsDirs.contains d then
      let r := deleteExisting (fsDirs.filter (fun p => p ≠ d)) rest
      (r.1, d :: r.2)
    else
      deleteExisting fsDirs rest

/-- `POST /admin/delete-cache`: remove whichever of the two auth layouts
exist on disk, answer `CACHE_DELETED` with the removed paths. -/
def deleteCacheRoute (st : ServerState) (sid : String) :
    ApiResponse × ServerState × List Action :=
  if sid = "" then (ApiResponse.error 400 "sessionId required", st, [])
  else
    let dirs := getAuthDirsForSession st.cwd sid
    let r := deleteExisting st.authDirs dirs
    (ApiResponse.statusDeleted "CACHE_DELETED" r.2,
     { st with authDirs := r.1 },
     r.2.map Action.removeDir)

/-- `POST /admin/force-reset`: when a live adapter is registered, attempt
`client.logout()` (swallowing a throw) and `delete sessions[sessionId]`
first; only afterwards delete the on-disk auth directories; answer
`FORCE_RESET_DONE` with the removed paths. -/
def forceResetRoute (st : ServerState) (sid : String) (logoutThrows : Bool) :
    ApiResponse × ServerState × List Action :=
  if sid = "" then (ApiResponse.error 400 "sessionId required", st, [])
  else
    let step1 : ServerState × List Action :=
      match st.sessions sid with
      | some _ =>
        match logoutThrows with
        | true => (st.delSess sid, [Action.clientLogout sid, Action.removeSession sid])
        | false => (st.delSess sid, [Action.clientLogout sid, Action.removeSession sid])
      | none => (st, [])
    let dirs := getAuthDirsForSession st.cwd sid
    let r := deleteExisting step1.1.authDirs dirs
    (ApiResponse.statusDeleted "FORCE_RESET_DONE" r.2,
     { step1.1 with authDirs := r.1 },
     step1.2 ++ r.2.map Action.removeDir)

/-- One atomic occurrence the server reacts to: an HTTP request (with the
outcomes of the adapter calls it awaits) or an adapter lifecycle event. -/
inductive Step where
  | start (sid : String)
  | qr (sid : String) (dataUrl : Option String)
  | authenticated (sid : String)
  | ready (sid : String)
  | authFailure (sid msg : String)
  | disconnected (sid reason : String)
  | statusQuery (sid : String) (probe : ProbeOutcome)
  | sendMsg (sid number message : String) (probe : ProbeOutcome) (sendOk : Bool)
  | sendMed (sid number : String) (file : Option String) (probe : ProbeOutcome) (sendOk : Bool)
  | sendMedV2 (sid number : String) (file : Option String) (sendOk : Bool)
  | logout (sid : String) (logoutThrows : Bool)
  | deleteCache (sid : String)
  | forceReset (sid : String) (logoutThrows : Bool)
deriving DecidableEq, Repr

/-- The state transition of one step (responses and action lists dropped). -/
def applyStep (st : ServerState) : Step → ServerState
  | Step.start sid => (startSession st sid).2
  | Step.qr sid dataUrl => qrEvent st sid dataUrl
  | Step.authenticated sid => authenticatedEvent st sid
  | Step.ready sid => readyEvent st sid
  | Step.authFailure sid msg => authFailureEvent st sid msg
  | Step.disconnected sid reason => disconnectedEvent st sid reason
  | Step.statusQuery sid probe => (sessionStatusRoute st sid probe).2.1
  | Step.sendMsg sid number message probe sendOk =>
      (sendMessage st sid number message probe sendOk).2.1
  | Step.sendMed sid number file probe sendOk =>
      (sendMedia st sid number file probe sendOk).2.1
  | Step.sendMedV2 sid number file sendOk => (sendMediaV2 st sid number file sendOk).2.1
  | Step.logout sid logoutThrows => (logoutSession st sid logoutThrows).2.1
  | Step.deleteCache sid => (deleteCacheRoute st sid).2.1
  | Step.forceReset sid logoutThrows => (forceResetRoute st sid logoutThrows).2.1

/-- Run a trace of steps from a state. -/
def run (st : ServerState) (steps : List Step) : ServerState :=
  steps.foldl applyStep st

/-- The state at process start: empty session table, no events emitted yet,
`fs0` the directories initially present on disk. -/
def initState (cwd : String) (fs0 : List String) : ServerState :=
  { sessions := fun _ => none, nextClientId := 0, emitted := [], authDirs := fs0, cwd := cwd }

/-- Folding one emitted event into the last-broadcast-status accumulator for
a room: a `status` event for this room overwrites it, anything else keeps it. -/
def statusUpd (sid : String) (acc : Option String) (e : String × SocketEvent) : Option String :=
  match e with
  | (s, SocketEvent.status stat _) => if s = sid then some stat else acc
  | _ => acc

/-- The status most recently broadcast to a tenant's room, if any. -/
def lastStatusFor (events : List (String × SocketEvent)) (sid : String) : Option String :=
  events.foldl (statusUpd sid) none

/-- The stored auth artifact (QR data URL) of a tenant, if any. -/
def artifactOf (st : ServerState) (sid : String) : Option String :=
  (st.sessions sid).bind SessionRec.qrDataUrl

/-- Sample state: tenant `"a"` started and a QR data URL stored (the state
between the `qr` event and authentication). -/
def sampleQrState : ServerState :=
  qrEvent (createSession (initState "/srv" []) "a") "a" (some "qr-data-url")

/-- Sample state: tenant `"a"` fully logged in (after the `ready` event). -/
def sampleReadyState : ServerState :=
  readyEvent sampleQrState "a"

/-- Sample state: logged-in tenant `"a"` whose current-layout auth directory
exists on disk. -/
def sampleReadyFsState : ServerState :=
  { sampleReadyState with authDirs := ["/srv/.wwebjs_auth/session-a"] }

/-- Whether `client.getState()` came back with `"CONNECTED"` (the condition
under which `ensureConnected` reports `ok`). -/
def probeOk : ProbeOutcome → Bool
  | ProbeOutcome.throws => false
  | ProbeOutcome.result s => s = "CONNECTED"

/-- Scanning an action list from the front: no directory deletion occurs
before the tenant's registry entry has been removed. -/
def dirDeletesOnlyAfterRemove (sid : String) : List Action → Prop
  | [] => True
  | Action.removeDir _ :: _ => False
  | Action.removeSession s :: rest =>
      if s = sid then True else dirDeletesOnlyAfterRemove sid rest
  | _ :: rest => dirDeletesOnlyAfterRemove sid rest

/-- Invariant: any tenant whose most recently broadcast room status is
`LOGGED_IN` has no stored auth artifact. -/
def artifactClearedAtLogin (st : ServerState) : Prop :=
  ∀ sid, lastStatusFor st.emitted sid = some "LOGGED_IN" → artifactOf st sid = none

@[simp]
theorem setSess_sessions (st : ServerState) (sid : String) (v : SessionRec) (k : String) :
    (st.setSess sid v).sessions k = if k = sid then some v else st.sessions k := rfl

@[simp]
theorem delSess_sessions (st : ServerState) (sid k : String) :
    (st.delSess sid).sessions k = if k = sid then none else st.sessions k := rfl

@[simp]
theorem emit_sessions (st : ServerState) (sid : String) (e : SocketEvent) :
    (st.emit sid e).sessions = st.sessions := rfl

@[simp]
theorem setSess_emitted (st : ServerState) (sid : String) (v : SessionRec) :
    (st.setSess sid v).emitted = st.emitted := rfl

@[simp]
theorem delSess_emitted (st : ServerState) (sid : String) :
    (st.delSess sid).emitted = st.emitted := rfl

@[simp]
theorem emit_emitted (st : ServerState) (sid : String) (e : SocketEvent) :
    (st.emit sid e).emitted = st.emitted ++ [(sid, e)] := rfl

@[simp]
theorem lastStatusFor_append (evs l : List (String × SocketEvent)) (sid : String) :
    lastStatusFor (evs ++ l) sid = l.foldl (statusUpd sid) (lastStatusFor evs sid) :=
  List.foldl_append ..

theorem lastStatusFor_snoc_status_self (evs : List (String × SocketEvent))
    (sid x : String) (d : Option String) :
    lastStatusFor (evs ++ [(sid, SocketEvent.status x d)]) sid = some x := by
  simp [lastStatusFor, statusUpd]

theorem lastStatusFor_snoc_status_other (evs : List (String × SocketEvent))
    (r sid x : String) (d : Option String) (h : r ≠ sid) :
    lastStatusFor (evs ++ [(r, SocketEvent.status x d)]) sid = lastStatusFor evs sid := by
  simp [lastStatusFor, statusUpd, h]

theorem lastStatusFor_snoc_qr (evs : List (String × SocketEvent)) (r sid u : String) :
    lastStatusFor (evs ++ [(r, SocketEvent.qr u)]) sid = lastStatusFor evs sid := by
  simp [lastStatusFor, statusUpd]

theorem lastStatusFor_snoc_sent (evs : List (String × SocketEvent))
    (r sid n k : String) (f : Option String) :
    lastStatusFor (evs ++ [(r, SocketEvent.sent n k f)]) sid = lastStatusFor evs sid := by
  simp [lastStatusFor, statusUpd]

theorem lastStatusFor_snoc_error (evs : List (String × SocketEvent)) (r sid m : String) :
    lastStatusFor (evs ++ [(r, SocketEvent.error m)]) sid = lastStatusFor evs sid := by
  simp [lastStatusFor, statusUpd]

/-- C1: `start(tenantId)` is idempotent: for a tenant with no session, one
adapter is created, the new session's derived status is `STARTING` and
`STARTING` is returned; for a tenant with an existing session the call
creates no second adapter, leaves the whole server state unchanged and
returns the existing session's current (derived) status; in particular a
second `start` right after the first changes nothing and returns the
`STARTING` status the first call produced. -/
theorem start_session_idempotent (st : ServerState) (sid : String) (h : sid ≠ "") :
    (st.sessions sid = none →
      (startSession st sid).1 = ApiResponse.status "STARTING" ∧
      ((startSession st sid).2).sessions sid =
        some ⟨st.nextClientId, false, none⟩ ∧
      sessionStatusOf ⟨st.nextClientId, false, none⟩ = "STARTING" ∧
      ((startSession st sid).2).nextClientId = st.nextClientId + 1 ∧
      (startSession (startSession st sid).2 sid).1 = ApiResponse.status "STARTING" ∧
      (startSession (startSession st sid).2 sid).2 = (startSession st sid).2) ∧
    (∀ sess, st.sessions sid = some sess →
      (startSession st sid).1 = ApiResponse.status (sessionStatusOf sess) ∧
      (startSession st sid).2 = st) := by
  constructor
  · intro hn
    simp only [startSession, createSession, if_neg h, hn]
    simp [sessionStatusOf, ServerState.setSess]
  · intro sess hs
    simp [startSession, if_neg h, hs, sessionStatusOf]

/-- Witness for C1 at the empty initial state and tenant id `"a"`. -/
theorem start_session_idempotent_witness :
    (startSession (initState "/srv" []) "a").1 = ApiResponse.status "STARTING" ∧
    (startSession (startSession (initState "/srv" []) "a").2 "a").1 =
      ApiResponse.status "STARTING" ∧
    (startSession (startSession (initState "/srv" []) "a").2 "a").2 =
      (startSession (initState "/srv" []) "a").2 := by
  have h := (start_session_idempotent (initState "/srv" []) "a" (by decide)).1 rfl
  exact ⟨h.1, h.2.2.2.2.1, h.2.2.2.2.2⟩

/-- C5: `checkConnectivity` (`ensureConnected`) reports `NO_SESSION` exactly
when the tenant has no session (so session absence is always distinguishable
from presence-but-not-connected); with a session present, a successful probe
caches `ready := (state = "CONNECTED")` and reports accordingly, and a
thrown probe caches `ready := false` and reports `NOT_CONNECTED` instead of
raising. -/
theorem check_connectivity_spec (st : ServerState) (sid : String) (probe : ProbeOutcome) :
    ((ensureConnected st sid probe).1.reason = some "NO_SESSION" ↔ st.sessions sid = none) ∧
    (st.sessions sid = none → ensureConnected st sid probe = (⟨false, some "NO_SESSION"⟩, st, [])) ∧
    (∀ sess, st.sessions sid = some sess →
      (∀ s, probe = ProbeOutcome.result s →
        ((ensureConnected st sid probe).1.ok = true ↔ s = "CONNECTED") ∧
        ((ensureConnected st sid probe).2.1.sessions sid).map SessionRec.ready =
          some (decide (s = "CONNECTED")) ∧
        ((ensureConnected st sid probe).1.ok = false →
          (ensureConnected st sid probe).1.reason = some "NOT_CONNECTED")) ∧
      (probe = ProbeOutcome.throws →
        (ensureConnected st sid probe).1 = ⟨false, some "NOT_CONNECTED"⟩ ∧
        ((ensureConnected st sid probe).2.1.sessions sid).map SessionRec.ready =
          some false)) := by
  refine ⟨?_, ?_, ?_⟩
  · cases hs : st.sessions sid with
    | none => simp [ensureConnected, hs]
    | some sess =>
      cases probe with
      | throws => simp [ensureConnected, hs]
      | result s =>
        by_cases hc : s = "CONNECTED" <;>
          simp [ensureConnected, hs, hc]
  · intro hn
    simp [ensureConnected, hn]
  · intro sess hs
    constructor
    · rintro s rfl
      by_cases hc : s = "CONNECTED" <;>
        simp [ensureConnected, hs, hc]
    · rintro rfl
      simp [ensureConnected, hs]

/-- Witness for C5: a tenant with no session gets `NO_SESSION`; a started
tenant whose probe throws gets `NOT_CONNECTED` with `ready` cached `false`. -/
theorem check_connectivity_spec_witness :
    (ensureConnected (initState "/srv" []) "a" ProbeOutcome.throws).1.reason =
      some "NO_SESSION" ∧
    (ensureConnected (createSession (initState "/srv" []) "b") "b"
        ProbeOutcome.throws).1 = ⟨false, some "NOT_CONNECTED"⟩ := by
  refine ⟨?_, ?_⟩
  · exact (check_connectivity_spec (initState "/srv" []) "a" ProbeOutcome.throws).1.mpr rfl
  · exact (((check_connectivity_spec (createSession (initState "/srv" []) "b") "b"
      ProbeOutcome.throws).2.2 ⟨0, false, none⟩
        (by simp [createSession, initState, ServerState.setSess])).2 rfl).1

/-- C4: an observer joining a tenant's channel is immediately replayed the
session's current derived status (`NOT_STARTED` when no session exists),
and when that status is the awaiting-authentication one (`WAITING_QR`) the
stored auth artifact is replayed as well — so an observer joining between
`WAITING_QR` and `LOGGED_IN` receives both the status and the artifact. -/
theorem join_replays_status_and_artifact (st : ServerState) (sid : String) (h : sid ≠ "") :
    (st.sessions sid = none →
      joinSession st sid = [SocketEvent.status "NOT_STARTED" none]) ∧
    (∀ sess, st.sessions sid = some sess →
      (joinSession st sid).head? = some (SocketEvent.status (sessionStatusOf sess) none)) ∧
    (∀ sess q, st.sessions sid = some sess → sess.ready = false → sess.qrDataUrl = some q →
      joinSession st sid = [SocketEvent.status "WAITING_QR" none, SocketEvent.qr q]) := by
  refine ⟨?_, ?_, ?_⟩
  · intro hn
    simp [joinSession, h, hn]
  · intro sess hs
    simp [joinSession, h, hs, sessionStatusOf]
  · intro sess q hs hr hq
    simp [joinSession, h, hs, hr, hq]

/-- Witness for C4 at the sample awaiting-authentication state: the joining
observer receives the `WAITING_QR` status and the stored artifact. -/
theorem join_replays_status_and_artifact_witness :
    joinSession sampleQrState "a" =
      [SocketEvent.status "WAITING_QR" none, SocketEvent.qr "qr-data-url"] := by
  exact (join_replays_status_and_artifact sampleQrState "a" (by decide)).2.2
    ⟨0, false, some "qr-data-url"⟩ "qr-data-url"
    (by simp [sampleQrState, qrEvent, createSession, initState, ServerState.setSess,
      ServerState.emit])
    rfl rfl

/-- C6: `logout(tenantId)` answers 404 when no session exists; with a
session present it attempts the adapter's `logout()` and produces the same
teardown whether or not that call throws: the session is removed from the
registry, `LOGGED_OUT` is broadcast to the tenant's room, and `LOGGED_OUT`
is returned. -/
theorem logout_teardown_unconditional (st : ServerState) (sid : String) (h : sid ≠ "") :
    (st.sessions sid = none → ∀ b,
      logoutSession st sid b = (ApiResponse.error 404 "Session not found", st, [])) ∧
    (∀ sess, st.sessions sid = some sess → ∀ b,
      (logoutSession st sid b).1 = ApiResponse.status "LOGGED_OUT" ∧
      Action.clientLogout sid ∈ (logoutSession st sid b).2.2 ∧
      (logoutSession st sid b).2.1.sessions sid = none ∧
      lastStatusFor (logoutSession st sid b).2.1.emitted sid = some "LOGGED_OUT" ∧
      logoutSession st sid true = logoutSession st sid false) := by
  refine ⟨?_, ?_⟩
  · intro hn b
    cases b <;> simp [logoutSession, h, hn]
  · intro sess hs b
    cases b <;>
      simp [logoutSession, h, hs, statusUpd]

/-- Witness for C6: logging out the sample started tenant (with a throwing
adapter logout) still removes the session and returns `LOGGED_OUT`. -/
theorem logout_teardown_unconditional_witness :
    (logoutSession sampleQrState "a" true).1 = ApiResponse.status "LOGGED_OUT" ∧
    (logoutSession sampleQrState "a" true).2.1.sessions "a" = none ∧
    logoutSession sampleQrState "a" true = logoutSession sampleQrState "a" false := by
  have h := (logout_teardown_unconditional sampleQrState "a" (by decide)).2
    ⟨0, false, some "qr-data-url"⟩
    (by simp [sampleQrState, qrEvent, createSession, initState, ServerState.setSess,
      ServerState.emit]) true
  exact ⟨h.1, h.2.2.1, h.2.2.2.2⟩

/-- C7: when the `ready` event fires for an existing session, the session's
record becomes `ready := true` with the auth artifact cleared, the stored
artifact is absent afterwards even if previously set, and the status
broadcast to the room is `LOGGED_IN`. -/
theorem ready_clears_artifact (st : ServerState) (sid : String) (sess : SessionRec)
    (h : st.sessions sid = some sess) :
    (readyEvent st sid).sessions sid =
      some { sess with ready := true, qrDataUrl := none } ∧
    artifactOf (readyEvent st sid) sid = none ∧
    lastStatusFor (readyEvent st sid).emitted sid = some "LOGGED_IN" := by
  refine ⟨?_, ?_, ?_⟩
  · simp [readyEvent, h]
  · simp [readyEvent, h, artifactOf]
  · simp [readyEvent, h, statusUpd]

/-- Witness for C7 at the sample state whose artifact is set: after `ready`
the artifact is gone and the room status is `LOGGED_IN`. -/
theorem ready_clears_artifact_witness :
    artifactOf (readyEvent sampleQrState "a") "a" = none ∧
    lastStatusFor (readyEvent sampleQrState "a").emitted "a" = some "LOGGED_IN" := by
  have h := ready_clears_artifact sampleQrState "a" ⟨0, false, some "qr-data-url"⟩
    (by simp [sampleQrState, qrEvent, createSession, initState, ServerState.setSess,
      ServerState.emit])
  exact ⟨h.2.1, h.2.2⟩

theorem string_list_contains_mem (l : List String) (a : String) :
    l.contains a = true ↔ a ∈ l := by
  simp [List.contains_iff_exists_mem_beq]

theorem deleteExisting_deleted_mem (dirs : List String) (fsDirs : List String) (d : String) :
    d ∈ (deleteExisting fsDirs dirs).2 ↔ d ∈ dirs ∧ d ∈ fsDirs := by
  induction dirs generalizing fsDirs with
  | nil => simp [deleteExisting]
  | cons a rest ih =>
    by_cases ha : fsDirs.contains a
    · by_cases hd : d = a
      · subst hd
        simp only [deleteExisting, if_pos ha]
        simp [(string_list_contains_mem _ _).mp ha]
      · simp only [deleteExisting, if_pos ha]
        simp [hd, ih, List.mem_filter]
    · by_cases hd : d = a
      · subst hd
        simp only [deleteExisting, if_neg ha]
        have : d ∉ fsDirs := by
          intro hm; exact ha ((string_list_contains_mem _ _).mpr hm)
        simp [ih, this]
      · simp only [deleteExisting, if_neg ha]
        simp [hd, ih]

theorem deleteExisting_kept_mem (dirs : List String) (fsDirs : List String) (d : String) :
    d ∈ (deleteExisting fsDirs dirs).1 ↔ d ∈ fsDirs ∧ d ∉ dirs := by
  induction dirs generalizing fsDirs with
  | nil => simp [deleteExisting]
  | cons a rest ih =>
    by_cases ha : fsDirs.contains a
    · by_cases hd : d = a
      · subst hd
        simp only [deleteExisting, if_pos ha]
        simp [ih, List.mem_filter]
      · simp only [deleteExisting, if_pos ha]
        simp [ih, List.mem_filter, hd]
    · by_cases hd : d = a
      · subst hd
        simp only [deleteExisting, if_neg ha]
        have : d ∉ fsDirs := by
          intro hm; exact ha ((string_list_contains_mem _ _).mpr hm)
        simp [ih, this]
      · simp only [deleteExisting, if_neg ha]
        simp [hd, ih]

theorem deleteExisting_deleted_nil (dirs : List String) (fsDirs : List String)
    (h : ∀ d ∈ dirs, d ∉ fsDirs) : (deleteExisting fsDirs dirs).2 = [] := by
  refine List.eq_nil_iff_forall_not_mem.mpr ?_
  intro d hd
  rcases (deleteExisting_deleted_mem dirs fsDirs d).mp hd with ⟨h1, h2⟩
  exact h d h1 h2

/-- C9: `deleteCredentials` (`/admin/delete-cache`) resolves the current and
legacy auth-directory layouts for the tenant, removes exactly those present
on disk (a path is reported deleted iff it is one of the two layouts and
existed), and answers `CACHE_DELETED` with the removed paths — in
particular, with no on-disk credential directory it answers with the empty
list rather than an error. -/
theorem delete_credentials_spec (st : ServerState) (sid : String) (h : sid ≠ "") :
    (deleteCacheRoute st sid).1 =
      ApiResponse.statusDeleted "CACHE_DELETED"
        (deleteExisting st.authDirs (getAuthDirsForSession st.cwd sid)).2 ∧
    (∀ d, d ∈ (deleteExisting st.authDirs (getAuthDirsForSession st.cwd sid)).2 ↔
      d ∈ getAuthDirsForSession st.cwd sid ∧ d ∈ st.authDirs) ∧
    (∀ d, d ∈ (deleteCacheRoute st sid).2.1.authDirs ↔
      d ∈ st.authDirs ∧ d ∉ getAuthDirsForSession st.cwd sid) ∧
    ((∀ d ∈ getAuthDirsForSession st.cwd sid, d ∉ st.authDirs) →
      (deleteCacheRoute st sid).1 = ApiResponse.statusDeleted "CACHE_DELETED" []) := by
  refine ⟨?_, ?_, ?_, ?_⟩
  · simp [deleteCacheRoute, h]
  · intro d
    exact deleteExisting_deleted_mem ..
  · intro d
    simpa [deleteCacheRoute, h] using
      (deleteExisting_kept_mem (getAuthDirsForSession st.cwd sid) st.authDirs d).trans
        (by tauto)
  · intro hnone
    simp [deleteCacheRoute, h, deleteExisting_deleted_nil _ _ hnone]

/-- Witness for C9: deleting credentials for a never-started tenant with an
empty disk yields `CACHE_DELETED` with no removed paths. -/
theorem delete_credentials_spec_witness :
    (deleteCacheRoute (initState "/srv" []) "a").1 =
      ApiResponse.statusDeleted "CACHE_DELETED" [] := by
  exact (delete_credentials_spec (initState "/srv" []) "a" (by decide)).2.2.2
    (by intro d hd; simp [initState])

/-- C8: `forceReset` on a tenant with a live adapter first attempts the
adapter logout and removes the session from the registry, and only
afterwards deletes the credential directories: in the action sequence no
directory deletion precedes the registry removal, the registry entry is
gone afterwards, and the response is `FORCE_RESET_DONE` with the deleted
paths. -/
theorem force_reset_removes_before_delete (st : ServerState) (sid : String)
    (sess : SessionRec) (b : Bool) (h : sid ≠ "") (hs : st.sessions sid = some sess) :
    (forceResetRoute st sid b).1 =
      ApiResponse.statusDeleted "FORCE_RESET_DONE"
        (deleteExisting st.authDirs (getAuthDirsForSession st.cwd sid)).2 ∧
    (forceResetRoute st sid b).2.1.sessions sid = none ∧
    (forceResetRoute st sid b).2.2 =
      [Action.clientLogout sid, Action.removeSession sid] ++
        (deleteExisting st.authDirs (getAuthDirsForSession st.cwd sid)).2.map
          Action.removeDir ∧
    dirDeletesOnlyAfterRemove sid (forceResetRoute st sid b).2.2 := by
  have hacts : (forceResetRoute st sid b).2.2 =
      [Action.clientLogout sid, Action.removeSession sid] ++
        (deleteExisting st.authDirs (getAuthDirsForSession st.cwd sid)).2.map
          Action.removeDir := by
    cases b <;> simp [forceResetRoute, h, hs, ServerState.delSess]
  refine ⟨?_, ?_, hacts, ?_⟩
  · cases b <;> simp [forceResetRoute, h, hs, ServerState.delSess]
  · cases b <;> simp [forceResetRoute, h, hs, ServerState.delSess]
  · rw [hacts]
    simp [dirDeletesOnlyAfterRemove]

/-- Witness for C8: force-resetting the logged-in tenant `"a"` whose auth
directory exists (and whose adapter logout throws) removes the session
first and reports the deleted path. -/
theorem force_reset_removes_before_delete_witness :
    (forceResetRoute sampleReadyFsState "a" true).1 =
      ApiResponse.statusDeleted "FORCE_RESET_DONE" ["/srv/.wwebjs_auth/session-a"] ∧
    (forceResetRoute sampleReadyFsState "a" true).2.1.sessions "a" = none ∧
    dirDeletesOnlyAfterRemove "a" (forceResetRoute sampleReadyFsState "a" true).2.2 := by
  have h := force_reset_removes_before_delete sampleReadyFsState "a"
    ⟨0, true, none⟩ true (by decide)
    (by simp [sampleReadyFsState, sampleReadyState, sampleQrState, readyEvent, qrEvent,
      createSession, initState, ServerState.setSess, ServerState.emit])
  refine ⟨?_, h.2.1, h.2.2.2⟩
  rw [h.1]
  rfl

/-- C3 (amended): for a tenant with an existing session, send-text, the
first-variant send-media, and the status query all call the ground-truth
connectivity probe (`client.getState()` via `ensureConnected`) and use its
result before trusting the cached status: when the probe does not come back
`CONNECTED`, both send routes answer `Session not connected` and never call
`client.sendMessage`.  The second-variant send-media is the exception the
counterexample exhibits. -/
theorem send_ops_probe_ground_truth (st : ServerState) (sid number message : String)
    (file : String) (probe : ProbeOutcome) (sendOk : Bool) (sess : SessionRec)
    (hs : st.sessions sid = some sess)
    (h1 : sid ≠ "") (h2 : number ≠ "") (h3 : message ≠ "") :
    Action.probeState sid ∈ (sendMessage st sid number message probe sendOk).2.2 ∧
    Action.probeState sid ∈ (sendMedia st sid number (some file) probe sendOk).2.2 ∧
    Action.probeState sid ∈ (sessionStatusRoute st sid probe).2.2 ∧
    (probeOk probe = false →
      (sendMessage st sid number message probe sendOk).1 =
        ApiResponse.error 400 "Session not connected" ∧
      (∀ r, Action.clientSend sid r ∉ (sendMessage st sid number message probe sendOk).2.2) ∧
      (sendMedia st sid number (some file) probe sendOk).1 =
        ApiResponse.error 400 "Session not connected" ∧
      (∀ r, Action.clientSend sid r ∉
        (sendMedia st sid number (some file) probe sendOk).2.2)) := by
  have hok : ∀ s, probe = ProbeOutcome.result s →
      (ensureConnected st sid probe).1.ok = probeOk probe := by
    rintro s rfl
    simp [ensureConnected, hs, probeOk]
  refine ⟨?_, ?_, ?_, ?_⟩
  · cases probe with
    | throws =>
      cases sendOk <;>
        simp [sendMessage, ensureConnected, h1, h2, h3, hs]
    | result s =>
      by_cases hc : s = "CONNECTED" <;> cases sendOk <;>
        simp [sendMessage, ensureConnected, h1, h2, h3, hs, hc]
  · cases probe with
    | throws =>
      cases sendOk <;>
        simp [sendMedia, ensureConnected, h1, h2, hs]
    | result s =>
      by_cases hc : s = "CONNECTED" <;> cases sendOk <;>
        simp [sendMedia, ensureConnected, h1, h2, hs, hc]
  · cases probe with
    | throws => simp [sessionStatusRoute, ensureConnected, hs]
    | result s =>
      by_cases hc : s = "CONNECTED" <;>
        simp [sessionStatusRoute, ensureConnected, hs, hc]
  · intro hp
    cases probe with
    | throws =>
      refine ⟨?_, ?_, ?_, ?_⟩ <;>
        simp [sendMessage, sendMedia, ensureConnected, h1, h2, h3, hs]
    | result s =>
      have hc : ¬ (s = "CONNECTED") := by
        intro hcc
        rw [hcc] at hp
        simp [probeOk] at hp
      refine ⟨?_, ?_, ?_, ?_⟩ <;>
        simp [sendMessage, sendMedia, ensureConnected, h1, h2, h3, hs, hc]

/-- Witness for C3 (amended): with tenant `"a"` started and a QR pending,
a throwing probe makes send-text answer `Session not connected` after
having called the probe. -/
theorem send_ops_probe_ground_truth_witness :
    Action.probeState "a" ∈
      (sendMessage sampleQrState "a" "123" "hi" ProbeOutcome.throws true).2.2 ∧
    (sendMessage sampleQrState "a" "123" "hi" ProbeOutcome.throws true).1 =
      ApiResponse.error 400 "Session not connected" := by
  have h := send_ops_probe_ground_truth sampleQrState "a" "123" "hi" "f.pdf"
    ProbeOutcome.throws true ⟨0, false, some "qr-data-url"⟩
    (by simp [sampleQrState, qrEvent, createSession, initState, ServerState.setSess,
      ServerState.emit])
    (by decide) (by decide) (by decide)
  exact ⟨h.1, (h.2.2.2 rfl).1⟩

/-- C3 counterexample: the second-variant send-media route, on a tenant
whose cached `ready` flag is `true`, reports success while performing no
connectivity probe at all — it decides from the cached flag alone, so not
every send-type operation calls the ground-truth probe. -/
theorem send_media_v2_skips_probe_counterexample :
    (sendMediaV2 sampleReadyState "a" "123" (some "f.pdf") true).1 =
      ApiResponse.status "Media sent successfully" ∧
    Action.probeState "a" ∉
      (sendMediaV2 sampleReadyState "a" "123" (some "f.pdf") true).2.2 ∧
    (sendMediaV2 sampleReadyState "a" "123" (some "f.pdf") true).2.2 =
      [Action.clientSend "a" "123"] := by
  refine ⟨rfl, ?_, rfl⟩
  intro hmem
  simp [sampleReadyState, sampleQrState, readyEvent, qrEvent, createSession, initState,
    ServerState.setSess, ServerState.emit, sendMediaV2] at hmem

/-- C10: per-tenant isolation (frame property): every caller-facing
operation invoked for tenant `t` — start, status query, send text, both
send-media variants, logout, delete credentials, force reset — leaves the
registry entry of every other tenant `t'` (its adapter handle, ready flag
and stored auth artifact) unchanged. -/
theorem tenant_isolation (st : ServerState) (t tOther number message : String)
    (file : Option String) (probe : ProbeOutcome) (sendOk b : Bool)
    (hne : tOther ≠ t) :
    (startSession st t).2.sessions tOther = st.sessions tOther ∧
    (sessionStatusRoute st t probe).2.1.sessions tOther = st.sessions tOther ∧
    (sendMessage st t number message probe sendOk).2.1.sessions tOther =
      st.sessions tOther ∧
    (sendMedia st t number file probe sendOk).2.1.sessions tOther =
      st.sessions tOther ∧
    (sendMediaV2 st t number file sendOk).2.1.sessions tOther = st.sessions tOther ∧
    (logoutSession st t b).2.1.sessions tOther = st.sessions tOther ∧
    (deleteCacheRoute st t).2.1.sessions tOther = st.sessions tOther ∧
    (forceResetRoute st t b).2.1.sessions tOther = st.sessions tOther := by
  have hens : ∀ pr, (ensureConnected st t pr).2.1.sessions tOther = st.sessions tOther := by
    intro pr
    cases hs : st.sessions t with
    | none => cases pr <;> simp [ensureConnected, hs]
    | some sess => cases pr <;> simp [ensureConnected, hs, hne]
  refine ⟨?_, ?_, ?_, ?_, ?_, ?_, ?_, ?_⟩
  · by_cases h0 : t = ""
    · simp [startSession, h0]
    · cases hs : st.sessions t with
      | none => simp [startSession, createSession, h0, hs, hne]
      | some sess => simp [startSession, h0, hs]
  · cases hs : st.sessions t with
    | none => simp [sessionStatusRoute, hs]
    | some sess =>
      by_cases hok : (ensureConnected st t probe).1.ok <;>
        simp [sessionStatusRoute, hs, hok, hens probe]
  · by_cases h0 : t = "" ∨ number = "" ∨ message = ""
    · simp [sendMessage, h0]
    · cases hs : st.sessions t with
      | none => simp [sendMessage, h0, hs]
      | some sess =>
        by_cases hok : (ensureConnected st t probe).1.ok <;> cases sendOk <;>
          simp [sendMessage, h0, hs, hok, hens probe]
  · by_cases h0 : t = "" ∨ number = "" ∨ file = none
    · simp [sendMedia, h0]
    · cases hs : st.sessions t with
      | none => simp [sendMedia, h0, hs]
      | some sess =>
        by_cases hok : (ensureConnected st t probe).1.ok <;> cases sendOk <;>
          simp [sendMedia, h0, hs, hok, hens probe]
  · cases hs : st.sessions t with
    | none => simp [sendMediaV2, hs]
    | some sess =>
      cases file <;> cases sendOk <;> cases hr : sess.ready <;>
        simp [sendMediaV2, hs, hr]
  · by_cases h0 : t = ""
    · simp [logoutSession, h0]
    · cases hs : st.sessions t with
      | none => cases b <;> simp [logoutSession, h0, hs]
      | some sess => cases b <;> simp [logoutSession, h0, hs, hne, ServerState.delSess]
  · by_cases h0 : t = ""
    · simp [deleteCacheRoute, h0]
    · simp [deleteCacheRoute, h0]
  · by_cases h0 : t = ""
    · simp [forceResetRoute, h0]
    · cases hs : st.sessions t with
      | none => cases b <;> simp [forceResetRoute, h0, hs]
      | some sess => cases b <;> simp [forceResetRoute, h0, hs, hne, ServerState.delSess]

/-- Witness for C10: force-resetting tenant `"a"` leaves tenant `"b"`'s
(absent) registry entry untouched, and after starting `"b"` a logout of
`"a"` leaves `"b"`'s record unchanged. -/
theorem tenant_isolation_witness :
    (forceResetRoute sampleReadyFsState "a" true).2.1.sessions "b" =
      sampleReadyFsState.sessions "b" ∧
    (logoutSession (createSession sampleReadyFsState "b") "a" false).2.1.sessions "b" =
      (createSession sampleReadyFsState "b").sessions "b" := by
  constructor
  · exact (tenant_isolation sampleReadyFsState "a" "b" "123" "hi" none
      ProbeOutcome.throws true true (by decide)).2.2.2.2.2.2.2
  · exact (tenant_isolation (createSession sampleReadyFsState "b") "a" "b" "123" "hi"
      none ProbeOutcome.throws true false (by decide)).2.2.2.2.2.1

@[simp]
theorem createSession_sessions (st : ServerState) (sid k : String) :
    (createSession st sid).sessions k =
      if k = sid then some ⟨st.nextClientId, false, none⟩ else st.sessions k := rfl

@[simp]
theorem createSession_emitted (st : ServerState) (sid : String) :
    (createSession st sid).emitted = st.emitted := rfl

theorem inv_emit_status_ne (st : ServerState) (sid x : String) (d : Option String)
    (hx : x ≠ "LOGGED_IN") (h : artifactClearedAtLogin st) :
    artifactClearedAtLogin (st.emit sid (SocketEvent.status x d)) := by
  intro k hk
  rw [emit_emitted] at hk
  by_cases hk' : k = sid
  · subst hk'
    rw [lastStatusFor_snoc_status_self] at hk
    exact absurd (Option.some.inj hk) hx
  · rw [lastStatusFor_snoc_status_other _ _ _ _ _ (Ne.symm hk')] at hk
    exact h k hk

theorem inv_emit_nonstatus (st : ServerState) (sid : String) (e : SocketEvent)
    (he : ∀ x d, e ≠ SocketEvent.status x d) (h : artifactClearedAtLogin st) :
    artifactClearedAtLogin (st.emit sid e) := by
  intro k hk
  rw [emit_emitted] at hk
  have heq : lastStatusFor (st.emitted ++ [(sid, e)]) k = lastStatusFor st.emitted k := by
    cases e with
    | status x d => exact absurd rfl (he x d)
    | qr u => exact lastStatusFor_snoc_qr ..
    | sent a b c => exact lastStatusFor_snoc_sent ..
    | error m => exact lastStatusFor_snoc_error ..
  rw [heq] at hk
  exact h k hk

theorem inv_emit_logged_in (st : ServerState) (sid : String) (d : Option String)
    (ha : artifactOf st sid = none) (h : artifactClearedAtLogin st) :
    artifactClearedAtLogin (st.emit sid (SocketEvent.status "LOGGED_IN" d)) := by
  intro k hk
  rw [emit_emitted] at hk
  by_cases hk' : k = sid
  · subst hk'
    exact ha
  · rw [lastStatusFor_snoc_status_other _ _ _ _ _ (Ne.symm hk')] at hk
    exact h k hk

theorem inv_setSess_same_artifact (st : ServerState) (sid : String) (sess v : SessionRec)
    (hs : st.sessions sid = some sess) (hqr : v.qrDataUrl = sess.qrDataUrl)
    (h : artifactClearedAtLogin st) : artifactClearedAtLogin (st.setSess sid v) := by
  intro k hk
  rw [setSess_emitted] at hk
  have h0 := h k hk
  by_cases hk' : k = sid
  · subst hk'
    simp only [artifactOf, hs, Option.some_bind] at h0
    simp [artifactOf, hqr, h0]
  · simpa [artifactOf, hk'] using h0

theorem inv_setSess_none (st : ServerState) (sid : String) (v : SessionRec)
    (hv : v.qrDataUrl = none) (h : artifactClearedAtLogin st) :
    artifactClearedAtLogin (st.setSess sid v) := by
  intro k hk
  rw [setSess_emitted] at hk
  by_cases hk' : k = sid
  · subst hk'
    simp [artifactOf, hv]
  · simpa [artifactOf, hk'] using h k hk

theorem inv_delSess (st : ServerState) (sid : String) (h : artifactClearedAtLogin st) :
    artifactClearedAtLogin (st.delSess sid) := by
  intro k hk
  rw [delSess_emitted] at hk
  by_cases hk' : k = sid
  · subst hk'
    simp [artifactOf]
  · simpa [artifactOf, hk'] using h k hk

theorem inv_ensureConnected (st : ServerState) (sid : String) (probe : ProbeOutcome)
    (h : artifactClearedAtLogin st) :
    artifactClearedAtLogin (ensureConnected st sid probe).2.1 := by
  cases hs : st.sessions sid with
  | none => cases probe <;> simpa [ensureConnected, hs] using h
  | some sess =>
    cases probe with
    | throws =>
      simpa [ensureConnected, hs] using
        inv_setSess_same_artifact st sid sess { sess with ready := false } hs rfl h
    | result s =>
      simpa [ensureConnected, hs] using
        inv_setSess_same_artifact st sid sess
          { sess with ready := decide (s = "CONNECTED") } hs rfl h

theorem applyStep_preserves_inv (st : ServerState) (s : Step)
    (h : artifactClearedAtLogin st) : artifactClearedAtLogin (applyStep st s) := by
  cases s with
  | start sid =>
    by_cases h0 : sid = ""
    · simpa [applyStep, startSession, h0] using h
    · cases hs : st.sessions sid with
      | none =>
        intro k hk
        simp only [applyStep, startSession, if_neg h0, hs, createSession_emitted] at hk
        by_cases hk' : k = sid
        · subst hk'
          simp [applyStep, startSession, if_neg h0, hs, artifactOf]
        · have h1 := h k hk
          simpa [applyStep, startSession, if_neg h0, hs, artifactOf, hk'] using h1
      | some sess => simpa [applyStep, startSession, h0, hs] using h
  | qr sid dataUrl =>
    cases dataUrl with
    | none =>
      simpa [applyStep, qrEvent] using
        inv_emit_nonstatus st sid (SocketEvent.error "QR generation failed")
          (by intro x d hcon; cases hcon) h
    | some url =>
      cases hs : st.sessions sid with
      | none =>
        simpa [applyStep, qrEvent, hs] using
          inv_emit_nonstatus st sid (SocketEvent.error "QR generation failed")
            (by intro x d hcon; cases hcon) h
      | some sess =>
        intro k hk
        simp only [applyStep, qrEvent, hs, emit_emitted, setSess_emitted,
          lastStatusFor_append] at hk
        by_cases hk' : k = sid
        · subst hk'
          simp [statusUpd] at hk
        · have hsid : ¬ (sid = k) := fun hh => hk' hh.symm
          simp only [List.foldl_cons, List.foldl_nil, statusUpd, if_neg hsid] at hk
          have h1 := h k hk
          simpa [applyStep, qrEvent, hs, artifactOf, hk'] using h1
  | authenticated sid =>
    simpa [applyStep, authenticatedEvent] using
      inv_emit_status_ne st sid "AUTHENTICATED" none (by decide) h
  | ready sid =>
    cases hs : st.sessions sid with
    | none => simpa [applyStep, readyEvent, hs] using h
    | some sess =>
      have h1 := inv_setSess_none st sid { sess with ready := true, qrDataUrl := none }
        rfl h
      have h2 := inv_emit_logged_in (st.setSess sid
          { sess with ready := true, qrDataUrl := none }) sid none
        (by simp [artifactOf]) h1
      simpa [applyStep, readyEvent, hs] using h2
  | authFailure sid msg =>
    cases hs : st.sessions sid with
    | none => simpa [applyStep, authFailureEvent, hs] using h
    | some sess =>
      have h1 := inv_setSess_same_artifact st sid sess { sess with ready := false } hs rfl h
      simpa [applyStep, authFailureEvent, hs] using
        inv_emit_status_ne (st.setSess sid { sess with ready := false }) sid
          "AUTH_FAILURE" (some msg) (by decide) h1
  | disconnected sid reason =>
    have h1 := inv_emit_status_ne st sid "DISCONNECTED" (some reason) (by decide) h
    simpa [applyStep, disconnectedEvent] using
      inv_delSess (st.emit sid (SocketEvent.status "DISCONNECTED" (some reason))) sid h1
  | statusQuery sid probe =>
    cases hs : st.sessions sid with
    | none => simpa [applyStep, sessionStatusRoute, hs] using h
    | some sess =>
      by_cases hok : (ensureConnected st sid probe).1.ok <;>
        simpa [applyStep, sessionStatusRoute, hs, hok] using
          inv_ensureConnected st sid probe h
  | sendMsg sid number message probe sendOk =>
    by_cases h0 : sid = "" ∨ number = "" ∨ message = ""
    · simpa [applyStep, sendMessage, h0] using h
    · cases hs : st.sessions sid with
      | none => simpa [applyStep, sendMessage, h0, hs] using h
      | some sess =>
        have h1 := inv_ensureConnected st sid probe h
        by_cases hok : (ensureConnected st sid probe).1.ok
        · cases sendOk with
          | true =>
            simpa [applyStep, sendMessage, h0, hs, hok] using
              inv_emit_nonstatus (ensureConnected st sid probe).2.1 sid
                (SocketEvent.sent number "text" none) (by intro x d hcon; cases hcon) h1
          | false => simpa [applyStep, sendMessage, h0, hs, hok] using h1
        · simpa [applyStep, sendMessage, h0, hs, hok] using h1
  | sendMed sid number file probe sendOk =>
    by_cases h0 : sid = "" ∨ number = "" ∨ file = none
    · simpa [applyStep, sendMedia, h0] using h
    · cases hs : st.sessions sid with
      | none => simpa [applyStep, sendMedia, h0, hs] using h
      | some sess =>
        have h1 := inv_ensureConnected st sid probe h
        by_cases hok : (ensureConnected st sid probe).1.ok
        · cases sendOk with
          | true =>
            simpa [applyStep, sendMedia, h0, hs, hok] using
              inv_emit_nonstatus (ensureConnected st sid probe).2.1 sid
                (SocketEvent.sent number "media" file) (by intro x d hcon; cases hcon) h1
          | false => simpa [applyStep, sendMedia, h0, hs, hok] using h1
        · simpa [applyStep, sendMedia, h0, hs, hok] using h1
  | sendMedV2 sid number file sendOk =>
    have hst : (sendMediaV2 st sid number file sendOk).2.1 = st := by
      cases hs : st.sessions sid with
      | none => simp [sendMediaV2, hs]
      | some sess =>
        cases hr : sess.ready <;> cases file <;> cases sendOk <;>
          simp [sendMediaV2, hs, hr]
    simpa [applyStep, hst] using h
  | logout sid b =>
    by_cases h0 : sid = ""
    · cases b <;> simpa [applyStep, logoutSession, h0] using h
    · cases hs : st.sessions sid with
      | none => cases b <;> simpa [applyStep, logoutSession, h0, hs] using h
      | some sess =>
        have h1 := inv_delSess st sid h
        have h2 := inv_emit_status_ne (st.delSess sid) sid "LOGGED_OUT" none (by decide) h1
        cases b <;> simpa [applyStep, logoutSession, h0, hs] using h2
  | deleteCache sid =>
    by_cases h0 : sid = ""
    · simpa [applyStep, deleteCacheRoute, h0] using h
    · intro k hk
      simp only [applyStep, deleteCacheRoute, if_neg h0] at hk ⊢
      exact h k hk
  | forceReset sid b =>
    by_cases h0 : sid = ""
    · cases b <;> simpa [applyStep, forceResetRoute, h0] using h
    · cases hs : st.sessions sid with
      | none =>
        intro k hk
        cases b <;>
          simp only [applyStep, forceResetRoute, if_neg h0, hs] at hk ⊢ <;>
          exact h k hk
      | some sess =>
        have h1 := inv_delSess st sid h
        intro k hk
        cases b <;>
          simp only [applyStep, forceResetRoute, if_neg h0, hs] at hk ⊢ <;>
          exact h1 k hk

theorem run_preserves_inv (st : ServerState) (trace : List Step)
    (h : artifactClearedAtLogin st) : artifactClearedAtLogin (run st trace) := by
  induction trace generalizing st with
  | nil => exact h
  | cons s rest ih => exact ih (applyStep st s) (applyStep_preserves_inv st s h)

theorem initState_inv (cwd : String) (fs0 : List String) :
    artifactClearedAtLogin (initState cwd fs0) := by
  intro k hk
  simp [initState, lastStatusFor] at hk

/-- C2 counterexample: after `start`, a successful `qr` event and the
`authenticated` event for tenant `"a"`, the status broadcast to the room is
`AUTHENTICATED` — past authentication — yet the auth artifact is still
stored: the `authenticated` handler does not clear `qrDataUrl`. -/
theorem artifact_survives_authenticated_counterexample :
    lastStatusFor (run (initState "/srv" [])
        [Step.start "a", Step.qr "a" (some "qr-data-url"),
         Step.authenticated "a"]).emitted "a" = some "AUTHENTICATED" ∧
    artifactOf (run (initState "/srv" [])
        [Step.start "a", Step.qr "a" (some "qr-data-url"),
         Step.authenticated "a"]) "a" = some "qr-data-url" := by
  constructor <;> rfl

/-- C2 (amended): the stored auth artifact is not cleared when the status
advances to `AUTHENTICATED` (see the counterexample); it is cleared when the
session becomes logged in: in every state reachable from process start, a
tenant whose most recently broadcast status is `LOGGED_IN` has no stored
auth artifact. -/
theorem artifact_cleared_at_login_invariant (cwd : String) (fs0 : List String)
    (trace : List Step) (sid : String)
    (h : lastStatusFor (run (initState cwd fs0) trace).emitted sid = some "LOGGED_IN") :
    artifactOf (run (initState cwd fs0) trace) sid = none :=
  run_preserves_inv (initState cwd fs0) trace (initState_inv cwd fs0) sid h

/-- Witness for C2 (amended): a trace reaching `LOGGED_IN` for tenant `"a"`
has no stored artifact afterwards. -/
theorem artifact_cleared_at_login_invariant_witness :
    lastStatusFor (run (initState "/srv" [])
        [Step.start "a", Step.qr "a" (some "qr-data-url"),
         Step.authenticated "a", Step.ready "a"]).emitted "a" = some "LOGGED_IN" ∧
    artifactOf (run (initState "/srv" [])
        [Step.start "a", Step.qr "a" (some "qr-data-url"),
         Step.authenticated "a", Step.ready "a"]) "a" = none := by
  refine ⟨rfl, ?_⟩
  exact artifact_cleared_at_login_invariant "/srv" []
    [Step.start "a", Step.qr "a" (some "qr-data-url"),
     Step.authenticated "a", Step.ready "a"] "a" rfl

end WebWhatsApp
